import Mathlib

/-!
Verification development for the BrainPath frontend (TechWave repository).

The JavaScript source under src/frontend/src is shallowly embedded below:
each React page's event handlers and render logic become pure Lean
functions over explicit state records; HTTP calls become an explicit
outcome parameter (the response or the failure the transport delivered);
side effects (toasts, navigation, HTTP posts) are returned as an ordered
effect list.  JavaScript runtime details that the embedded code depends
on are made explicit:
  * truthiness of strings (undefined / null / empty string are falsy),
  * String.prototype.trim,
  * the object-spread update used for the answers map,
  * an expression that would throw a TypeError (property access on
    undefined) is modelled by returning none.
Timer values are rationals (elapsed seconds); question counts are Nat,
with the one JavaScript subtraction questions.length - 1 carried out
over Int exactly as the source computes it.
-/

namespace TechWave

/-- Whitespace as recognised by JavaScript String.prototype.trim
(space, tab, line feed, carriage return, vertical tab, form feed,
no-break space; the remaining exotic Unicode space code points are
omitted as they do not affect any claim). -/
def isJsWhitespace (c : Char) : Bool :=
  c = ' ' || c = '\t' || c = '\n' || c = '\r' ||
  c = Char.ofNat 11 || c = Char.ofNat 12 || c = Char.ofNat 160

/-- JavaScript String.prototype.trim: drop leading and trailing
whitespace. -/
def jsTrim (s : String) : String :=
  String.mk (((s.data.dropWhile isJsWhitespace).reverse.dropWhile isJsWhitespace).reverse)

/-- JavaScript truthiness of a possibly-absent string: undefined, null
and the empty string are falsy, every other string is truthy. -/
def jsTruthy : Option String → Bool
  | none => false
  | some s => !(s = "")

theorem jsTrim_eq_empty_of_all_whitespace (s : String)
    (h : ∀ c ∈ s.data, isJsWhitespace c = true) : jsTrim s = "" := by
  unfold jsTrim
  have h1 : s.data.dropWhile isJsWhitespace = [] :=
    List.dropWhile_eq_nil_iff.mpr h
  rw [h1]
  rfl

/-! ## AssessmentPage data model (src/frontend/src/pages/AssessmentPage.js) -/

/-- A question as carried in navigation state
(id, type, question text, options, expected_time); only the fields the
assessment controller reads are modelled.  expected_time is an optional
integer: none stands for an absent or null field. -/
structure Question where
  id : String
  expected_time : Option Int
deriving Repr, DecidableEq

/-- The record returned by POST /api/learning/evaluate-answer. -/
structure EvalResponse where
  is_correct : Bool
  feedback : String
deriving Repr, DecidableEq

/-- The request body submitAnswer posts to the evaluation endpoint. -/
structure EvalRequest where
  session_id : String
  question_id : String
  answer : String
  time_taken : ℚ
deriving Repr, DecidableEq

/-- An observable side effect of a handler: an HTTP post, a toast, or
a navigation. -/
inductive Effect where
  | httpPost (endpoint : String) (req : EvalRequest)
  | toastError (msg : String)
  | toastSuccess (msg : String)
  | toastInfo (msg : String)
  | navigate (path : String)
deriving Repr, DecidableEq

/-- Whether an effect is an HTTP request. -/
def Effect.isHttpPost : Effect → Bool
  | .httpPost _ _ => true
  | _ => false

/-- Whether an effect is a navigation. -/
def Effect.isNavigate : Effect → Bool
  | .navigate _ => true
  | _ => false

/-- The controller state of AssessmentPage: the five useState variables
currentIndex, answers, results, timer, completed, score (startTime is
presentational bookkeeping for the interval and is summarised by
timer). -/
structure AssessState where
  currentIndex : Nat
  answers : List (String × String)
  results : List EvalResponse
  timer : ℚ
  completed : Bool
  score : Nat
deriving Repr, DecidableEq

/-- The initial controller state of a mounted assessment page. -/
def initState : AssessState :=
  { currentIndex := 0, answers := [], results := [], timer := 0,
    completed := false, score := 0 }

/-- Reading answers[questionId] from the JS object: the most recent
binding, or undefined (none). -/
def jsGet (m : List (String × String)) (k : String) : Option String :=
  match m.find? (fun p => p.1 = k) with
  | some p => some p.2
  | none => none

/-- The object-spread update of handleAnswerChange: all previous keys
with questionId rebound to value. -/
def jsSet (m : List (String × String)) (k v : String) : List (String × String) :=
  (k, v) :: m.filter (fun p => !(p.1 = k))

theorem jsGet_jsSet (m : List (String × String)) (k v : String) :
    jsGet (jsSet m k v) k = some v := by
  simp [jsGet, jsSet, List.find?]

/-- handleAnswerChange: stores value under the current question's id.
Returns none when currentQuestion is undefined (the source would throw
a TypeError reading currentQuestion.id). -/
def handleAnswerChange (questions : List Question) (value : String)
    (st : AssessState) : Option AssessState :=
  match questions[st.currentIndex]? with
  | none => none
  | some q => some { st with answers := jsSet st.answers q.id value }

/-- The blank-answer rejection condition of submitAnswer:
!answer || answer.trim() === ''. -/
def answerBlank (answer : Option String) : Bool :=
  !(jsTruthy answer) || jsTrim (answer.getD "") = ""

/-- submitAnswer of AssessmentPage.  outcome is what the single
evaluate-answer HTTP call returned (Except.error for a network or API
failure, Except.ok for a 2xx response body).  The result pairs the next
controller state with the ordered list of effects; none models the
TypeError thrown when currentQuestion is undefined. -/
def submitAnswer (questions : List Question) (sessionId : String)
    (outcome : Except String EvalResponse) (st : AssessState) :
    Option (AssessState × List Effect) :=
  match questions[st.currentIndex]? with
  | none => none
  | some q =>
    let answer := jsGet st.answers q.id
    if answerBlank answer then
      some (st, [Effect.toastError "Please provide an answer"])
    else
      let req : EvalRequest :=
        { session_id := sessionId, question_id := q.id,
          answer := answer.getD "", time_taken := st.timer }
      match outcome with
      | .error _ =>
        some (st, [Effect.httpPost "/learning/evaluate-answer" req,
                   Effect.toastError "Failed to submit answer"])
      | .ok resp =>
        let st1 := { st with
          results := st.results ++ [resp],
          score := if resp.is_correct then st.score + 1 else st.score }
        let st2 :=
          if (st.currentIndex : Int) < (questions.length : Int) - 1 then
            { st1 with currentIndex := st.currentIndex + 1, timer := 0 }
          else
            { st1 with completed := true }
        some (st2, [Effect.httpPost "/learning/evaluate-answer" req,
                    Effect.toastSuccess resp.feedback])

/-- One user round of the assessment loop: type an answer for the
current question, then submit it, with the evaluation call succeeding
with the given response. -/
def sessionStep (questions : List Question) (sessionId : String)
    (st : AssessState) (step : String × EvalResponse) : Option AssessState :=
  (handleAnswerChange questions step.1 st).bind fun st1 =>
    (submitAnswer questions sessionId (Except.ok step.2) st1).map Prod.fst

/-- A run of the session: the successful submissions in order, each a
pair of the typed answer and the evaluation response. -/
def runSession (questions : List Question) (sessionId : String)
    (st : AssessState) (steps : List (String × EvalResponse)) :
    Option AssessState :=
  List.foldlM (sessionStep questions sessionId) st steps

/-- Number of steps whose evaluation response was correct. -/
def countCorrect (steps : List (String × EvalResponse)) : Nat :=
  (steps.filter (fun s => s.2.is_correct)).length

/-- The expected time for the current question:
currentQuestion?.expected_time || 60.  An undefined current question,
an absent or null field, and the falsy value 0 all yield the default
60. -/
def expectedTime (currentQuestion : Option Question) : Int :=
  match currentQuestion with
  | none => 60
  | some q =>
    match q.expected_time with
    | none => 60
    | some e => if e = 0 then 60 else e

/-- The class string of the timer indicator as computed by the render:
timeRatio > 1.5 ? timer-danger : timeRatio > 1 ? timer-warning :
text-lime. -/
def timerClass (r : ℚ) : String :=
  if r > 3/2 then "timer-danger"
  else if r > 1 then "timer-warning"
  else "text-[#a3e635]"

/-- What the assessment page renders: the guard views and, once
completed, the summary (success affordance flag and the displayed score
text). -/
inductive AssessView where
  | loading
  | completedView (passed : Bool) (scoreText : String)
  | questionView (index : Nat)
deriving Repr, DecidableEq

/-- The top-level render of AssessmentPage: loading when questions is
empty, the completed summary when completed, otherwise the current
question card.  The completed card shows CheckCircle iff score >= 4 and
always prints the score over the literal 6. -/
def renderAssessment (questions : List Question) (st : AssessState) : AssessView :=
  if questions.length = 0 then .loading
  else if st.completed then
    .completedView (decide (st.score ≥ 4)) (toString st.score ++ "/6")
  else .questionView st.currentIndex

/-! ## Session store (src/frontend/src/App.js) -/

/-- The user profile as held in the session store. -/
structure UserProfile where
  email : String
  education_level : String
deriving Repr, DecidableEq

/-- The App-level session state: the token and user useState pair,
mirrored into localStorage by the two effects. -/
structure Session where
  token : Option String
  user : Option UserProfile
deriving Repr, DecidableEq

/-- handleLogin: invoked with the token and user of a successful
login/signup response; sets both. -/
def handleLogin (newToken : String) (newUser : UserProfile) (_ : Session) : Session :=
  { token := some newToken, user := some newUser }

/-- handleLogout: clears both and wipes storage. -/
def handleLogout (_ : Session) : Session :=
  { token := none, user := none }

/-- The session states the application can be in: the logged-out start
state (fresh storage reads null for both keys), closed under the only
two mutators, handleLogin and handleLogout, and under a reload (which
re-reads from storage the same pair the effects persisted). -/
inductive ReachableSession : Session → Prop
  | start : ReachableSession { token := none, user := none }
  | login (s : Session) (t : String) (u : UserProfile) :
      ReachableSession s → ReachableSession (handleLogin t u s)
  | logout (s : Session) :
      ReachableSession s → ReachableSession (handleLogout s)
  | reload (s : Session) : ReachableSession s → ReachableSession s

/-! ## AuthPage signup validation (src/frontend/src/pages/AuthPage.js) -/

/-- The signup form fields read by handleSubmit in signup mode. -/
structure SignupForm where
  email : String
  password : String
  educationLevel : String
  subLevel : String
  board : String
deriving Repr, DecidableEq

/-- The request body posted to /api/auth/signup. -/
structure SignupRequest where
  email : String
  password : String
  education_level : String
  sub_level : Option String
  board : Option String
deriving Repr, DecidableEq

/-- Outcome of the signup branch of handleSubmit: blocked locally with
a toast, or the network request that is posted. -/
inductive SignupAction where
  | blocked (toastMsg : String)
  | request (req : SignupRequest)
deriving Repr, DecidableEq

/-- The signup branch of handleSubmit: !educationLevel blocks;
educationLevel === school with !subLevel || !board blocks; otherwise
the signup request is issued with subLevel || null and board || null. -/
def handleSignup (f : SignupForm) : SignupAction :=
  if f.educationLevel = "" then
    .blocked "Please select your education level"
  else if f.educationLevel = "school" ∧ (f.subLevel = "" ∨ f.board = "") then
    .blocked "Please complete school details"
  else
    .request
      { email := f.email, password := f.password,
        education_level := f.educationLevel,
        sub_level := if f.subLevel = "" then none else some f.subLevel,
        board := if f.board = "" then none else some f.board }

/-- Whether the signup branch issued a network request. -/
def SignupAction.issuesRequest : SignupAction → Bool
  | .request _ => true
  | .blocked _ => false

/-! ## Dashboard technique selection (src/frontend/src/pages/Dashboard.js) -/

/-- Effects of the Dashboard's startLearning handler: the empty-topic
guard toasts and returns; otherwise it navigates to /learn carrying
{topic, technique}. -/
inductive DashEffect where
  | toastError (msg : String)
  | navigateLearn (topic : String) (technique : String)
deriving Repr, DecidableEq

/-- startLearning: !topic.trim() rejects with a toast; otherwise
navigate to the Learning page with the topic and technique as state. -/
def startLearning (topic : String) (technique : String) : List DashEffect :=
  if jsTrim topic = "" then
    [DashEffect.toastError "Please enter a topic to learn"]
  else
    [DashEffect.navigateLearn topic technique]

/-! ## LearningPage mount guard (src/frontend/src/pages/LearningPage.js) -/

/-- Effects of the LearningPage mount: redirect to the dashboard, or
issue the generate-content request. -/
inductive LearnEffect where
  | navigateDashboard
  | httpPostGenerateContent (topic : String) (technique : String)
deriving Repr, DecidableEq

/-- The mount effect of LearningPage: topic and technique come from
location.state || an empty object, so each is an optional string; if
either is falsy the page navigates to /dashboard and returns before any
request, otherwise generateContent posts {topic, technique}. -/
def learningMount (topic : Option String) (technique : Option String) :
    List LearnEffect :=
  if !(jsTruthy topic) || !(jsTruthy technique) then
    [LearnEffect.navigateDashboard]
  else
    [LearnEffect.httpPostGenerateContent (topic.getD "") (technique.getD "")]

/-! ## Helper lemmas -/

/-- Classification of an arbitrary rational by the timer class ternary. -/
theorem timerClass_cases (r : ℚ) :
    (r ≤ 1 ↔ timerClass r = "text-[#a3e635]") ∧
    ((1 < r ∧ r ≤ 3/2) ↔ timerClass r = "timer-warning") ∧
    (3/2 < r ↔ timerClass r = "timer-danger") := by
  unfold timerClass
  split_ifs with h1 h2
  · refine ⟨⟨fun h => absurd h (by linarith), fun h => absurd h (by decide)⟩,
      ⟨fun h => absurd h1 (by linarith [h.2]), fun h => absurd h (by decide)⟩,
      ⟨fun _ => rfl, fun _ => h1⟩⟩
  · refine ⟨⟨fun h => absurd h (by linarith), fun h => absurd h (by decide)⟩,
      ⟨fun _ => rfl, fun _ => ⟨h2, by linarith⟩⟩,
      ⟨fun h => absurd h h1, fun h => absurd h (by decide)⟩⟩
  · refine ⟨⟨fun _ => rfl, fun _ => by linarith⟩,
      ⟨fun h => absurd h.1 h2, fun h => absurd h (by decide)⟩,
      ⟨fun h => absurd h h1, fun h => absurd h (by decide)⟩⟩

/-- A blank answer in the sense of the claims (absent, or every
character whitespace, which covers the empty string) satisfies the
source's rejection condition. -/
theorem answerBlank_of_blank (a : Option String)
    (h : a = none ∨ ∀ c ∈ (a.getD "").data, isJsWhitespace c = true) :
    answerBlank a = true := by
  rcases h with h | h
  · subst h; rfl
  · cases a with
    | none => rfl
    | some s =>
      by_cases hs : s = ""
      · subst hs; rfl
      · have ht : jsTrim s = "" := jsTrim_eq_empty_of_all_whitespace s h
        simp [answerBlank, ht]

/-- A nonempty answer whose trim is nonempty passes the rejection
condition. -/
theorem answerBlank_eq_false (a : String) (h1 : a ≠ "") (h2 : jsTrim a ≠ "") :
    answerBlank (some a) = false := by
  simp [answerBlank, jsTruthy, h1, h2]

/-- No outcome of submitAnswer ever lowers the score. -/
theorem submitAnswer_score_le (questions : List Question) (sid : String)
    (outcome : Except String EvalResponse) (st : AssessState)
    (res : AssessState × List Effect)
    (h : submitAnswer questions sid outcome st = some res) :
    st.score ≤ res.1.score := by
  unfold submitAnswer at h
  cases hq : questions[st.currentIndex]? with
  | none => rw [hq] at h; cases h
  | some q =>
    rw [hq] at h
    dsimp only at h
    by_cases hb : answerBlank (jsGet st.answers q.id) = true
    · rw [if_pos hb] at h
      simp only [Option.some.injEq] at h
      subst h
      exact le_refl _
    · rw [if_neg hb] at h
      cases outcome with
      | error e =>
        simp only [Option.some.injEq] at h
        subst h
        exact le_refl _
      | ok resp =>
        dsimp only at h
        split_ifs at h <;>
          (simp only [Option.some.injEq] at h; subst h; dsimp only; omega)

/-- handleAnswerChange never touches score, results, currentIndex,
completed or the timer. -/
theorem handleAnswerChange_frame (questions : List Question) (value : String)
    (st st1 : AssessState)
    (h : handleAnswerChange questions value st = some st1) :
    st1.score = st.score ∧ st1.currentIndex = st.currentIndex ∧
    st1.results = st.results ∧ st1.completed = st.completed ∧
    st1.timer = st.timer := by
  unfold handleAnswerChange at h
  cases hq : questions[st.currentIndex]? with
  | none => rw [hq] at h; cases h
  | some q =>
    rw [hq] at h
    simp only [Option.some.injEq] at h
    cases h
    exact ⟨rfl, rfl, rfl, rfl, rfl⟩

/-- A round with an in-range question and a nonblank answer succeeds,
adds one to the score exactly when the response was correct, and moves
the index forward by at most one. -/
theorem sessionStep_ok (questions : List Question) (sid : String)
    (st : AssessState) (a : String) (resp : EvalResponse) (q : Question)
    (hq : questions[st.currentIndex]? = some q)
    (h1 : a ≠ "") (h2 : jsTrim a ≠ "") :
    ∃ st2, sessionStep questions sid st (a, resp) = some st2 ∧
      st2.score = (if resp.is_correct then st.score + 1 else st.score) ∧
      st2.currentIndex ≤ st.currentIndex + 1 := by
  unfold sessionStep handleAnswerChange
  rw [hq]
  simp only [Option.some_bind]
  unfold submitAnswer
  dsimp only
  rw [hq]
  dsimp only
  rw [jsGet_jsSet, answerBlank_eq_false a h1 h2]
  simp only [Bool.false_eq_true, if_false]
  split_ifs <;> exact ⟨_, rfl, rfl, by dsimp only; omega⟩

/-- countCorrect distributes over cons. -/
theorem countCorrect_cons (a : String) (r : EvalResponse)
    (rest : List (String × EvalResponse)) :
    countCorrect ((a, r) :: rest) =
      (if r.is_correct then 1 else 0) + countCorrect rest := by
  unfold countCorrect
  rw [List.filter_cons]
  split_ifs with h
  · simp only [List.length_cons]; omega
  · simp

/-- Core run lemma: from any state with enough questions left, a run of
valid successful submissions completes and adds exactly the number of
correct responses to the score. -/
theorem runSession_score_core (questions : List Question) (sid : String) :
    ∀ (steps : List (String × EvalResponse)) (st : AssessState),
    st.currentIndex + steps.length ≤ questions.length →
    (∀ s ∈ steps, s.1 ≠ "" ∧ jsTrim s.1 ≠ "") →
    ∃ st2, runSession questions sid st steps = some st2 ∧
      st2.score = st.score + countCorrect steps := by
  intro steps
  induction steps with
  | nil =>
    intro st _ _
    exact ⟨st, rfl, by simp [countCorrect]⟩
  | cons s rest ih =>
    intro st hlen hvalid
    obtain ⟨a, resp⟩ := s
    have hlt : st.currentIndex < questions.length := by
      simp only [List.length_cons] at hlen; omega
    have hq : questions[st.currentIndex]? = some questions[st.currentIndex] :=
      List.getElem?_eq_getElem hlt
    have hv := hvalid (a, resp) (List.mem_cons_self _ _)
    obtain ⟨st1, hstep, hscore, hidx⟩ :=
      sessionStep_ok questions sid st a resp _ hq hv.1 hv.2
    have hlen1 : st1.currentIndex + rest.length ≤ questions.length := by
      simp only [List.length_cons] at hlen; omega
    obtain ⟨st2, hrun, hscore2⟩ :=
      ih st1 hlen1 (fun x hx => hvalid x (List.mem_cons_of_mem _ hx))
    refine ⟨st2, ?_, ?_⟩
    · unfold runSession at hrun ⊢
      rw [List.foldlM_cons, hstep]
      exact hrun
    · rw [hscore2, hscore, countCorrect_cons]
      split_ifs <;> omega

/-- Score is non-decreasing over one round, whatever happens in it. -/
theorem sessionStep_score_le (questions : List Question) (sid : String)
    (st : AssessState) (s : String × EvalResponse) (st1 : AssessState)
    (h : sessionStep questions sid st s = some st1) :
    st.score ≤ st1.score := by
  unfold sessionStep at h
  cases hc : handleAnswerChange questions s.1 st with
  | none => rw [hc] at h; cases h
  | some stA =>
    rw [hc] at h
    simp only [Option.some_bind] at h
    cases hs : submitAnswer questions sid (Except.ok s.2) stA with
    | none => rw [hs] at h; cases h
    | some res =>
      rw [hs] at h
      simp only [Option.map_some', Option.some.injEq] at h
      subst h
      have hA := (handleAnswerChange_frame questions s.1 st stA hc).1
      have hB := submitAnswer_score_le questions sid _ stA res hs
      omega

/-- Score is non-decreasing over any run of rounds. -/
theorem runSession_score_le (questions : List Question) (sid : String) :
    ∀ (steps : List (String × EvalResponse)) (st st2 : AssessState),
    runSession questions sid st steps = some st2 → st.score ≤ st2.score := by
  intro steps
  induction steps with
  | nil =>
    intro st st2 h
    cases h
    exact le_refl _
  | cons s rest ih =>
    intro st st2 h
    unfold runSession at h
    rw [List.foldlM_cons] at h
    cases hc : sessionStep questions sid st s with
    | none => rw [hc] at h; cases h
    | some st1 =>
      rw [hc] at h
      simp only [Option.bind_eq_bind', Option.some_bind'] at h
      exact le_trans (sessionStep_score_le questions sid st s st1 hc) (ih st1 st2 h)

/-! ## Claim theorems -/

/-- C1: after N successful answer submissions the accumulated score
equals the number of submissions whose evaluation response had
is_correct true, and the score never decreases across the session (any
prefix of a run scores no more than the whole run). -/
theorem assessment_score_correct_and_monotone
    (questions : List Question) (sid : String)
    (steps extra : List (String × EvalResponse))
    (hlen : steps.length ≤ questions.length)
    (hvalid : ∀ s ∈ steps, s.1 ≠ "" ∧ jsTrim s.1 ≠ "") :
    (∃ st2, runSession questions sid initState steps = some st2 ∧
       st2.score = countCorrect steps) ∧
    (∀ st st1 st2, runSession questions sid st steps = some st1 →
       runSession questions sid st (steps ++ extra) = some st2 →
       st1.score ≤ st2.score) := by
  constructor
  · have h0 : initState.currentIndex + steps.length ≤ questions.length := by
      simpa [initState] using hlen
    obtain ⟨st2, hrun, hscore⟩ :=
      runSession_score_core questions sid steps initState h0 hvalid
    exact ⟨st2, hrun, by simpa [initState] using hscore⟩
  · intro st st1 st2 h1 h2
    unfold runSession at h1 h2
    rw [List.foldlM_append, h1] at h2
    simp only [Option.bind_eq_bind', Option.some_bind'] at h2
    exact runSession_score_le questions sid extra st1 st2 h2

/-- Witness for C1 at a concrete two-question session: the first answer
is judged correct, the second incorrect, and the final score is 1. -/
theorem assessment_score_correct_and_monotone_witness :
    (([("a", ⟨true, "good"⟩), ("bb", ⟨false, "no"⟩)] :
        List (String × EvalResponse)).length ≤
      ([⟨"q1", some 30⟩, ⟨"q2", none⟩] : List Question).length ∧
     (∀ s ∈ ([("a", ⟨true, "good"⟩), ("bb", ⟨false, "no"⟩)] :
        List (String × EvalResponse)), s.1 ≠ "" ∧ jsTrim s.1 ≠ "")) ∧
    ((∃ st2, runSession [⟨"q1", some 30⟩, ⟨"q2", none⟩] "sid" initState
        [("a", ⟨true, "good"⟩), ("bb", ⟨false, "no"⟩)] = some st2 ∧
       st2.score = countCorrect [("a", ⟨true, "good"⟩), ("bb", ⟨false, "no"⟩)]) ∧
     (∀ st st1 st2,
       runSession [⟨"q1", some 30⟩, ⟨"q2", none⟩] "sid" st
         [("a", ⟨true, "good"⟩), ("bb", ⟨false, "no"⟩)] = some st1 →
       runSession [⟨"q1", some 30⟩, ⟨"q2", none⟩] "sid" st
         ([("a", ⟨true, "good"⟩), ("bb", ⟨false, "no"⟩)] ++ []) = some st2 →
       st1.score ≤ st2.score)) :=
  ⟨⟨by decide, by decide⟩,
   assessment_score_correct_and_monotone _ "sid" _ [] (by decide) (by decide)⟩

/-- C2: the urgency classification of a ratio of timer to expected
time is normal up to 1, warning strictly above 1 up to 3/2, danger
strictly above 3/2, with both boundary values in the lower bucket. -/
theorem timer_urgency_classification (t e : ℚ) (_he : 0 < e) :
    (t / e ≤ 1 ↔ timerClass (t / e) = "text-[#a3e635]") ∧
    ((1 < t / e ∧ t / e ≤ 3/2) ↔ timerClass (t / e) = "timer-warning") ∧
    (3/2 < t / e ↔ timerClass (t / e) = "timer-danger") :=
  timerClass_cases (t / e)

/-- Witness for C2 at timer 3 and expected time 2: the boundary value
3/2 classifies as warning. -/
theorem timer_urgency_classification_witness :
    (0 : ℚ) < 2 ∧
    (((3 : ℚ) / 2 ≤ 1 ↔ timerClass ((3 : ℚ) / 2) = "text-[#a3e635]") ∧
     ((1 < (3 : ℚ) / 2 ∧ (3 : ℚ) / 2 ≤ 3/2) ↔
        timerClass ((3 : ℚ) / 2) = "timer-warning") ∧
     (3/2 < (3 : ℚ) / 2 ↔ timerClass ((3 : ℚ) / 2) = "timer-danger")) :=
  ⟨by norm_num, timer_urgency_classification 3 2 (by norm_num)⟩

/-- C3: whenever the completed summary renders, the success affordance
shows exactly when score is at least 4, and the score text is the score
over the literal 6, independent of how many questions the session
had. -/
theorem completed_view_pass_threshold (questions : List Question)
    (st : AssessState) (hne : questions.length ≠ 0)
    (hc : st.completed = true) :
    renderAssessment questions st =
      .completedView (decide (st.score ≥ 4)) (toString st.score ++ "/6") := by
  unfold renderAssessment
  rw [if_neg hne, if_pos hc]

/-- Witness for C3 in a six-question session: 4 correct shows 4/6 with
the success affordance, 3 correct shows 3/6 with the retry
affordance. -/
theorem completed_view_pass_threshold_witness :
    (([⟨"a", none⟩, ⟨"b", none⟩, ⟨"c", none⟩, ⟨"d", none⟩, ⟨"e", none⟩,
        ⟨"f", none⟩] : List Question).length ≠ 0 ∧
     renderAssessment
       [⟨"a", none⟩, ⟨"b", none⟩, ⟨"c", none⟩, ⟨"d", none⟩, ⟨"e", none⟩, ⟨"f", none⟩]
       { initState with completed := true, score := 4 } =
       .completedView true "4/6") ∧
    renderAssessment
      [⟨"a", none⟩, ⟨"b", none⟩, ⟨"c", none⟩, ⟨"d", none⟩, ⟨"e", none⟩, ⟨"f", none⟩]
      { initState with completed := true, score := 3 } =
      .completedView false "3/6" :=
  ⟨⟨by decide,
    by rw [completed_view_pass_threshold _ _ (by decide) rfl]; decide⟩,
   by rw [completed_view_pass_threshold _ _ (by decide) rfl]; decide⟩

/-- C4: submitting while the current answer is absent or consists only
of whitespace (which covers the empty string) toasts an error and
leaves the whole controller state unchanged, whatever the network would
have answered. -/
theorem submit_blank_answer_frame (questions : List Question)
    (sid : String) (st : AssessState) (q : Question)
    (outcome : Except String EvalResponse)
    (hq : questions[st.currentIndex]? = some q)
    (hblank : jsGet st.answers q.id = none ∨
      ∀ c ∈ ((jsGet st.answers q.id).getD "").data, isJsWhitespace c = true) :
    submitAnswer questions sid outcome st =
      some (st, [Effect.toastError "Please provide an answer"]) := by
  unfold submitAnswer
  rw [hq]
  dsimp only
  rw [answerBlank_of_blank _ hblank]
  simp

/-- Witness for C4: a whitespace-only answer to the first question is
rejected with the toast and the state, timer included, is returned
unchanged. -/
theorem submit_blank_answer_frame_witness :
    (([⟨"q1", none⟩] : List Question)[(AssessState.mk 0 [("q1", " ")] [] 5 false 0).currentIndex]? =
      some ⟨"q1", none⟩) ∧
    (jsGet ([("q1", " ")]) "q1" = none ∨
      ∀ c ∈ ((jsGet ([("q1", " ")]) "q1").getD "").data,
        isJsWhitespace c = true) ∧
    submitAnswer [⟨"q1", none⟩] "sid" (Except.ok ⟨true, "x"⟩)
      (AssessState.mk 0 [("q1", " ")] [] 5 false 0) =
      some (AssessState.mk 0 [("q1", " ")] [] 5 false 0,
        [Effect.toastError "Please provide an answer"]) :=
  ⟨rfl, Or.inr (by decide),
   submit_blank_answer_frame _ "sid" _ _ _ rfl (Or.inr (by decide))⟩

/-- C5: in every reachable session state the token and the user are
present together or absent together; no state with exactly one of them
is reachable. -/
theorem session_token_user_invariant (s : Session)
    (h : ReachableSession s) :
    (s.token.isSome = true ↔ s.user.isSome = true) := by
  induction h with
  | start => simp
  | login s t u _ _ => simp [handleLogin]
  | logout s _ _ => simp [handleLogout]
  | reload s _ ih => exact ih

/-- Witness for C5 at the state reached by one successful login. -/
theorem session_token_user_invariant_witness :
    ReachableSession { token := some "tok", user := some ⟨"e", "college"⟩ } ∧
    (({ token := some "tok", user := some ⟨"e", "college"⟩ } :
        Session).token.isSome = true ↔
     ({ token := some "tok", user := some ⟨"e", "college"⟩ } :
        Session).user.isSome = true) :=
  have hr : ReachableSession { token := some "tok", user := some ⟨"e", "college"⟩ } :=
    ReachableSession.login _ "tok" ⟨"e", "college"⟩ ReachableSession.start
  ⟨hr, session_token_user_invariant _ hr⟩

/-- C6: when the evaluate-answer call fails, the controller state is
returned unchanged and the effects are exactly the one HTTP post that
failed followed by the generic error toast: no state change, no
retry. -/
theorem submit_eval_failure_frame (questions : List Question)
    (sid : String) (st : AssessState) (q : Question) (errMsg : String)
    (hq : questions[st.currentIndex]? = some q)
    (hvalid : answerBlank (jsGet st.answers q.id) = false) :
    submitAnswer questions sid (Except.error errMsg) st =
      some (st, [Effect.httpPost "/learning/evaluate-answer"
          { session_id := sid, question_id := q.id,
            answer := (jsGet st.answers q.id).getD "",
            time_taken := st.timer },
        Effect.toastError "Failed to submit answer"]) := by
  unfold submitAnswer
  rw [hq]
  dsimp only
  rw [hvalid]
  simp

/-- Witness for C6: a failing evaluation call on a typed answer leaves
the concrete state untouched and yields one post and one error
toast. -/
theorem submit_eval_failure_frame_witness :
    (([⟨"q1", none⟩] : List Question)[(AssessState.mk 0 [("q1", "yes")] [] 7 false 2).currentIndex]? =
      some ⟨"q1", none⟩) ∧
    answerBlank (jsGet ([("q1", "yes")]) "q1") = false ∧
    submitAnswer [⟨"q1", none⟩] "sid" (Except.error "net down")
      (AssessState.mk 0 [("q1", "yes")] [] 7 false 2) =
      some (AssessState.mk 0 [("q1", "yes")] [] 7 false 2,
        [Effect.httpPost "/learning/evaluate-answer"
           (EvalRequest.mk "sid" "q1" "yes" 7),
         Effect.toastError "Failed to submit answer"]) :=
  ⟨rfl, by decide,
   submit_eval_failure_frame _ "sid" _ _ "net down" rfl (by decide)⟩

/-- C7: signup with the school education level is blocked locally
unless both the sub level and the board are nonempty, and signup with
an empty education level is blocked locally. -/
theorem signup_school_validation (f : SignupForm) :
    (f.educationLevel = "" →
       handleSignup f = .blocked "Please select your education level") ∧
    (f.educationLevel = "school" →
       ((handleSignup f).issuesRequest = true ↔
        f.subLevel ≠ "" ∧ f.board ≠ "")) := by
  constructor
  · intro h
    unfold handleSignup
    rw [if_pos h]
  · intro h
    have hne : ¬(f.educationLevel = "") := by rw [h]; decide
    unfold handleSignup
    rw [if_neg hne]
    by_cases h2 : f.subLevel = "" ∨ f.board = ""
    · rw [if_pos ⟨h, h2⟩]
      constructor
      · intro hfalse; exact Bool.noConfusion hfalse
      · intro hc; rcases h2 with h2 | h2
        · exact absurd h2 hc.1
        · exact absurd h2 hc.2
    · rw [if_neg (fun hc => h2 hc.2)]
      push_neg at h2
      exact ⟨fun _ => h2, fun _ => rfl⟩

/-- Witness for C7: a school signup with an empty sub level does not
issue the request, and an empty education level is blocked with its
toast. -/
theorem signup_school_validation_witness :
    ((SignupForm.mk "e" "p" "school" "" "cbse").educationLevel = "school" ∧
     ((handleSignup (SignupForm.mk "e" "p" "school" "" "cbse")).issuesRequest = true ↔
      ("" : String) ≠ "" ∧ ("cbse" : String) ≠ "")) ∧
    ((SignupForm.mk "e" "p" "" "" "").educationLevel = "" ∧
     handleSignup (SignupForm.mk "e" "p" "" "" "") =
       .blocked "Please select your education level") :=
  ⟨⟨rfl, (signup_school_validation _).2 rfl⟩,
   ⟨rfl, (signup_school_validation _).1 rfl⟩⟩

/-- C8: with a topic that is empty or whitespace-only, selecting any
technique on the Dashboard only toasts an error; in particular the
three technique buttons never navigate. -/
theorem dashboard_blank_topic_no_navigation (topic technique : String)
    (h : ∀ c ∈ topic.data, isJsWhitespace c = true) :
    startLearning topic technique =
      [DashEffect.toastError "Please enter a topic to learn"] := by
  unfold startLearning
  rw [if_pos (jsTrim_eq_empty_of_all_whitespace topic h)]

/-- Witness for C8 on a whitespace-only topic for each of the three
techniques. -/
theorem dashboard_blank_topic_no_navigation_witness :
    (∀ c ∈ ("  " : String).data, isJsWhitespace c = true) ∧
    startLearning "  " "passage" =
      [DashEffect.toastError "Please enter a topic to learn"] ∧
    startLearning "  " "video" =
      [DashEffect.toastError "Please enter a topic to learn"] ∧
    startLearning "  " "flowchart" =
      [DashEffect.toastError "Please enter a topic to learn"] :=
  ⟨by decide,
   dashboard_blank_topic_no_navigation "  " "passage" (by decide),
   dashboard_blank_topic_no_navigation "  " "video" (by decide),
   dashboard_blank_topic_no_navigation "  " "flowchart" (by decide)⟩

/-- C9: mounting the Learning page with the topic or the technique
missing from navigation state only navigates back to the dashboard; no
generate-content request is issued. -/
theorem learning_mount_guard (topic technique : Option String)
    (h : topic = none ∨ technique = none) :
    learningMount topic technique = [LearnEffect.navigateDashboard] := by
  unfold learningMount
  rcases h with h | h <;> subst h <;> simp [jsTruthy]

/-- Witness for C9: a direct visit with no navigation state at all
redirects and issues nothing else. -/
theorem learning_mount_guard_witness :
    ((none : Option String) = none ∨ (none : Option String) = none) ∧
    learningMount none none = [LearnEffect.navigateDashboard] :=
  ⟨Or.inl rfl, learning_mount_guard none none (Or.inl rfl)⟩

/-- C10: a current question whose expected_time is absent, null or 0
gets the default of 60 seconds (as does an undefined current question),
and the denominator of the timer ratio is never 0, so the urgency
classification is always computed on a well-defined finite ratio. -/
theorem expected_time_default_total (q : Question)
    (h : q.expected_time = none ∨ q.expected_time = some 0) :
    expectedTime (some q) = 60 ∧ expectedTime none = 60 ∧
    (∀ oq : Option Question, expectedTime oq ≠ 0) := by
  refine ⟨?_, rfl, ?_⟩
  · rcases h with h | h <;> simp [expectedTime, h]
  · intro oq
    cases oq with
    | none => decide
    | some qq =>
      cases he : qq.expected_time with
      | none => simp [expectedTime, he]
      | some e =>
        simp only [expectedTime, he]
        split_ifs with h0
        · decide
        · exact h0

/-- Witness for C10 at a question whose expected_time is the falsy
value 0. -/
theorem expected_time_default_total_witness :
    ((⟨"q", some 0⟩ : Question).expected_time = none ∨
     (⟨"q", some 0⟩ : Question).expected_time = some 0) ∧
    (expectedTime (some ⟨"q", some 0⟩) = 60 ∧ expectedTime none = 60 ∧
     (∀ oq : Option Question, expectedTime oq ≠ 0)) :=
  ⟨Or.inr rfl, expected_time_default_total _ (Or.inr rfl)⟩

end TechWave

